import Mathlib

/-!
Verification of the recursive book-summarization engine (`summarize.py`).

The source is shallowly embedded in Lean 4.  External collaborators that are
not part of the source file (the OpenAI chat endpoint, the `tiktoken`
encoder, and the helpers imported from the repository's `utilities` module:
`num_tokens_from_messages`, `summarization_prompt_messages`,
`split_text_into_sections`, `memoize_to_file`) are modelled either as
explicit function parameters, as fields of an `Oracle` record, or — where the
specification describes their contract — as definitions marked
`Modelled from the spec`.  Python ints are embedded as `Int` (they can be
negative, e.g. a negative computed budget), token counts as `Nat`, and the
wall-clock sleep durations of the retry loop as `Rat` values recorded in a
trace.
-/

/-- The module-level constant `model_name = "gpt-3.5-turbo-1106"`
(`summarize.py`, line 157). -/
def model_name : String := "gpt-3.5-turbo-1106"

/-- The module-level constant `MAX_ATTEMPTS = 3` (`summarize.py`, line 186). -/
def MAX_ATTEMPTS : Nat := 3

/-- A chat message: one `{"role": ..., "content": ...}` dictionary of the
message lists passed to the OpenAI API. -/
structure Message where
  role : String
  content : String
deriving DecidableEq

/-- The frozen dataclass `SummarizationParameters` (`summarize.py`,
lines 63-67).  Both fields are Python ints, hence `Int`:
`summary_input_size` is computed by a subtraction that can go negative. -/
structure SummarizationParameters where
  target_summary_size : Int
  summary_input_size : Int
deriving DecidableEq

/-- Embedding of `summarization_token_parameters` (`summarize.py`, lines 70-83).

The two helpers it calls live in the repository's `utilities` module, which
is not part of the source file; they are taken as explicit parameters:
`numTokensFromMessages` models `num_tokens_from_messages(messages, model)`
and `promptMessages` models `summarization_prompt_messages(text, target)`.
The body mirrors the source: it computes
`base_prompt_size = num_tokens_from_messages(summarization_prompt_messages("", target), model=model_name)`,
then `summary_input_size = model_context_size - (base_prompt_size + target_summary_size)`,
and unconditionally returns the dataclass — the source contains no
validation and no error path. -/
def summarization_token_parameters
    (numTokensFromMessages : List Message → String → Nat)
    (promptMessages : String → Int → List Message)
    (target_summary_size : Int) (model_context_size : Int) :
    SummarizationParameters :=
  let base_prompt_size : Int :=
    numTokensFromMessages (promptMessages "" target_summary_size) model_name
  { target_summary_size := target_summary_size,
    summary_input_size := model_context_size - (base_prompt_size + target_summary_size) }

/-- Outcome of one `openai.chat.completions.create` invocation, as observed
by the `try`/`except` of `gpt_summarize` (`summarize.py`, lines 33-47):
either a successful completion (content of `choices[0].message.content` and
`usage.total_tokens`), or one of the caught transient exception classes
(`APIConnectionError`, `APIError`, `RateLimitError`).  `retryable = false`
models an exception carrying a `should_retry` attribute set to `False`. -/
inductive CallOutcome where
  | success (content : String) (totalTokens : Nat)
  | failure (retryable : Bool)
deriving DecidableEq

/-- Result of a whole `gpt_summarize` invocation: the returned string, or a
re-raised exception recording at which attempt number it was raised. -/
inductive GptResult where
  | ok (summary : String)
  | raised (attempt : Nat)
deriving DecidableEq

/-- Observable behaviour of one `gpt_summarize` invocation: its result, the
number of API calls attempted, the trace of `time.sleep` durations (in
seconds, as exact rationals), and the amount added to the global counter
`actual_tokens`. -/
structure GptRun where
  result : GptResult
  attempts : Nat
  sleeps : List Rat
  tokensAdded : Nat
deriving DecidableEq

/-- The backoff computation of `gpt_summarize` (`summarize.py`, lines 50-56)
for one retry: `random_wait = random.random() * 4.0 + 1.0` (so `r` models
the `random.random()` draw from `[0,1)`), then `random_wait = random_wait * tries`,
then `time.sleep(random_wait * tries)`. -/
def backoffWait (r : Rat) (tries : Nat) : Rat :=
  let random_wait := r * 4 + 1
  let random_wait2 := random_wait * (tries : Rat)
  random_wait2 * (tries : Rat)

/-- The `while True` retry loop of `gpt_summarize` (`summarize.py`,
lines 31-56), entered with the current value of the `tries` counter.
`call n` is the outcome of the n-th API attempt and `rand n` the
`random.random()` draw used before retrying attempt `n`.  Mirrors the
source order: increment `tries`; attempt the call; on success wrap the
content in the `[[[`/`]]]` delimiters and add the reported usage to
`actual_tokens`; on a caught exception first test `tries >= MAX_ATTEMPTS`
(re-raise), then `should_retry == False` (re-raise), else sleep the backoff
wait and loop. -/
def gptAux (call : Nat → CallOutcome) (rand : Nat → Rat) (tries : Nat) : GptRun :=
  match call (tries + 1) with
  | CallOutcome.success content tok =>
      { result := GptResult.ok ("[[[" ++ content ++ "]]]"),
        attempts := 1, sleeps := [], tokensAdded := tok }
  | CallOutcome.failure retryable =>
      if h : MAX_ATTEMPTS ≤ tries + 1 then
        { result := GptResult.raised (tries + 1), attempts := 1, sleeps := [], tokensAdded := 0 }
      else if retryable then
        let rest := gptAux call rand (tries + 1)
        { result := rest.result,
          attempts := rest.attempts + 1,
          sleeps := backoffWait (rand (tries + 1)) (tries + 1) :: rest.sleeps,
          tokensAdded := rest.tokensAdded }
      else
        { result := GptResult.raised (tries + 1), attempts := 1, sleeps := [], tokensAdded := 0 }
termination_by MAX_ATTEMPTS - tries
decreasing_by simp only [MAX_ATTEMPTS] at *; omega

/-- Embedding of `gpt_summarize(text, target_summary_size)` (`summarize.py`, lines 28-56):
the loop is entered with `tries = 0`.  The text and target only influence
the request, which is abstracted into `call`. -/
def gpt_summarize (call : Nat → CallOutcome) (rand : Nat → Rat) : GptRun :=
  gptAux call rand 0

/-- One `gpt_summarize` invocation together with its effect on the single
module global it assigns, `actual_tokens` (`summarize.py`, lines 25, 29, 39):
the counter is incremented by `usage.total_tokens` exactly on the successful
return path. -/
def gpt_summarize_run (call : Nat → CallOutcome) (rand : Nat → Rat)
    (actual_tokens : Nat) : GptRun × Nat :=
  let run := gpt_summarize call rand
  (run, actual_tokens + run.tokensAdded)

/-- External collaborators of the summarization engine that are not defined
in the source file: `enc` models the `tiktoken` encoder `enc.encode`
(`summarize.py`, line 158), `gpt` models the content string produced by the
chat model for a given text and target size (the success path of the API
call), and `split` models `split_text_into_sections(text, size, division_point, model)`
from the repository's `utilities` module. -/
structure Oracle where
  enc : String → List Nat
  gpt : String → Int → String
  split : String → Int → String → String → List String

/-- The value returned by a successful `gpt_summarize(text, target)`
(`summarize.py`, line 40): the model content wrapped in the `[[[`/`]]]`
delimiter markers. -/
def gptSum (O : Oracle) (text : String) (target_summary_size : Int) : String :=
  "[[[" ++ O.gpt text target_summary_size ++ "]]]"

/-- The list comprehension `[summarize(x, ...) for x in split_input]`
(`summarize.py`, lines 114-117), for an arbitrary body `f`: sequence `f`
over the list, collecting the results and summing the external-call
counts; `none` if any element fails (insufficient fuel). -/
def goListP (f : String → Option (String × Nat)) :
    List String → Option (List String × Nat)
  | [] => some ([], 0)
  | t :: ts =>
    match f t with
    | none => none
    | some (s, c) =>
      match goListP f ts with
      | none => none
      | some (ss, cs) => some (s :: ss, c + cs)

/-- The recursive engine `summarize(text, token_quantities, division_point, model_name)`
(`summarize.py`, lines 86-121), without the `memoize_to_file` wrapper (the
wrapper is modelled separately by `summarizeM`).  The three branches mirror
the source: if `len(enc.encode(text)) <= target_summary_size` return the
text unchanged; elif `<= summary_input_size` return `gpt_summarize(text, target)`;
else split into sections, summarize each, and summarize the
`"\n\n".join(summaries)` again.  The extra `Nat` counts external model
calls; `fuel` bounds the recursion depth (the Python recursion has no such
bound, so `none` models non-termination within the given depth). -/
def summarizeP (O : Oracle) (dp mdl : String) (q : SummarizationParameters) :
    Nat → String → Option (String × Nat)
  | 0, _ => none
  | fuel + 1, text =>
    if ((O.enc text).length : Int) ≤ q.target_summary_size then
      some (text, 0)
    else if ((O.enc text).length : Int) ≤ q.summary_input_size then
      some (gptSum O text q.target_summary_size, 1)
    else
      match goListP (fun t => summarizeP O dp mdl q fuel t)
          (O.split text q.summary_input_size dp mdl) with
      | none => none
      | some (summaries, c1) =>
        match summarizeP O dp mdl q fuel (String.intercalate "\n\n" summaries) with
        | none => none
        | some (r, c2) => some (r, c1 + c2)

/-- Cache key of the memoized `summarize`: its full argument tuple
`(text, token_quantities, division_point, model_name)`. -/
abbrev MemoKey := String × SummarizationParameters × String × String

/-- Mutable state visible to the memoized engine: the persisted cache of
`memoize_to_file(cache_file="cache.json")` and a count of external model
calls performed so far. -/
structure MState where
  cache : List (MemoKey × String)
  calls : Nat
deriving DecidableEq

/-- Lookup in the flat key-value cache. -/
def cacheLookup (k : MemoKey) : List (MemoKey × String) → Option String
  | [] => none
  | (k', v) :: rest => if k' = k then some v else cacheLookup k rest

/-- State-threading version of the list comprehension over split sections,
for the memoized engine. -/
def goListM (f : String → MState → Option (String × MState)) :
    List String → MState → Option (List String × MState)
  | [], s => some ([], s)
  | t :: ts, s =>
    match f t s with
    | none => none
    | some (r, s') =>
      match goListM f ts s' with
      | none => none
      | some (rs, s'') => some (r :: rs, s'')

/-- The memoized `summarize` (`summarize.py`, lines 86-121) together with its
`@memoize_to_file(cache_file="cache.json")` decorator (line 86).

Modelled from the spec: `memoize_to_file` itself lives in the repository's
`utilities` module; per the spec's memoization contract the cache is
consulted before any work (hence before any network attempt) with the full
argument tuple as key, and a complete entry is written exactly when a call
completes.  The function body between the cache lookup and the cache write
is the same three-branch engine as `summarizeP`; recursive calls go through
the decorated function, so each performs its own lookup and write. -/
def summarizeM (O : Oracle) (dp mdl : String) (q : SummarizationParameters) :
    Nat → String → MState → Option (String × MState)
  | 0, text, s =>
    (match cacheLookup (text, q, dp, mdl) s.cache with
     | some v => some (v, s)
     | none => none)
  | fuel + 1, text, s =>
    (match cacheLookup (text, q, dp, mdl) s.cache with
     | some v => some (v, s)
     | none =>
       let body :=
         if ((O.enc text).length : Int) ≤ q.target_summary_size then
           some (text, s)
         else if ((O.enc text).length : Int) ≤ q.summary_input_size then
           some (gptSum O text q.target_summary_size, { s with calls := s.calls + 1 })
         else
           match goListM (fun t s' => summarizeM O dp mdl q fuel t s')
               (O.split text q.summary_input_size dp mdl) s with
           | none => none
           | some (summaries, s1) =>
             summarizeM O dp mdl q fuel (String.intercalate "\n\n" summaries) s1
       match body with
       | none => none
       | some (v, s') =>
         some (v, { s' with cache := ((text, q, dp, mdl), v) :: s'.cache }))

/-- Modelled from the spec: the sentence-level decomposition used by
`split_text_into_sections` (from the repository's `utilities` module, not in
the source file).  Per spec 4.3, splits occur only at positions where the
boundary character occurs, so the text is first cut into maximal runs each
ending with the boundary character (the last run may lack it); the boundary
character stays with its run, keeping the decomposition lossless. -/
def sentences (c : Char) : List Char → List (List Char)
  | [] => []
  | x :: xs =>
    match sentences c xs with
    | [] => [[x]]
    | s :: ss => if x = c then [x] :: s :: ss else (x :: s) :: ss

/-- Modelled from the spec: the hard-cut fallback of the section splitter
(spec 4.3), used when a single boundary-delimited run already exceeds the
budget — the run is cut into consecutive chunks of a fixed size to
guarantee forward progress. -/
def hardCut (size : Nat) : List Char → List (List Char)
  | [] => []
  | x :: xs => (x :: xs.take (size - 1)) :: hardCut size (xs.drop (size - 1))
termination_by l => l.length
decreasing_by simp only [List.length_drop, List.length_cons]; omega

/-- Modelled from the spec: greedy grouping of consecutive boundary-delimited
runs into sections (spec 4.3).  `acc` is the section under construction;
a run is appended while the measured token count stays within the budget,
otherwise the current section is emitted and a new one starts; a single run
that alone exceeds the budget falls back to the hard cut. -/
def groupGo (mu : List Char → Nat) (B : Int) :
    List (List Char) → List Char → List (List Char)
  | [], acc => if acc.isEmpty then [] else [acc]
  | s :: ss, acc =>
    if (mu (acc ++ s) : Int) ≤ B then groupGo mu B ss (acc ++ s)
    else if acc.isEmpty then hardCut B.toNat s ++ groupGo mu B ss []
    else acc :: (if (mu s : Int) ≤ B then groupGo mu B ss s
                 else hardCut B.toNat s ++ groupGo mu B ss [])

/-- Modelled from the spec: `split_text_into_sections(text, max_input_tokens,
division_point, model)` from the repository's `utilities` module (spec 4.3).
The text is decomposed at the division-point character, and consecutive runs
are grouped greedily into sections whose token count (measured by the given
encoder) stays within the budget, with a hard-cut fallback for oversized
runs.  The division point is passed as a string (the program uses `"."`);
its first character is the boundary character. -/
def split_text_into_sections (enc : String → List Nat) (text : String)
    (maxTokens : Int) (division_point : String) (_mdl : String) : List String :=
  let runs :=
    match division_point.data with
    | [] => [text.data]
    | c :: _ => sentences c text.data
  (groupGo (fun chunk => (enc (String.mk chunk)).length) maxTokens runs []).map
    (fun l => String.mk l)

/-- In-order concatenation of a list of strings (the rejoining operation of
the splitter's round-trip contract). -/
def concatStrings : List String → String
  | [] => ""
  | s :: rest => s ++ concatStrings rest

/-- The `summaries_joined` accumulation of `synthesize_summaries`
(`summarize.py`, lines 131-133): for each summary, append
`"Summary {i+1}: {summary}\n\n"` where `i` is its zero-based index. -/
def summariesJoinedAux (i : Nat) : List String → String
  | [] => ""
  | s :: rest =>
    "Summary " ++ toString (i + 1) ++ ": " ++ s ++ "\n\n" ++
      summariesJoinedAux (i + 1) rest

/-- The `summaries_joined` accumulation starting from index 0. -/
def summariesJoined (summaries : List String) : String :=
  summariesJoinedAux 0 summaries

/-- The stripped f-string content of the single user message built by
`synthesize_summaries` (`summarize.py`, lines 135-147).  Python's
`str.strip()` on the rendered triple-quoted string is modelled by
`String.trim`. -/
def synthContent (summaries : List String) : String :=
  ("\nA less powerful GPT model generated " ++ toString summaries.length ++
    " summaries of a book.\n\nBecause of the way that the summaries are generated, they may not be perfect. Please review them\nand synthesize them into a single more detailed summary that you think is best.\n\nThe summaries are as follows: " ++
    summariesJoined summaries ++ "\n").trim

/-- The `messages` list of `synthesize_summaries`: a single user-role
message. -/
def synthMessages (summaries : List String) : List Message :=
  [{ role := "user", content := synthContent summaries }]

/-- Embedding of `synthesize_summaries(summaries, model)` (`summarize.py`, lines 124-154),
without the memoization wrapper.  `numTokensFromMessages` models the
imported `num_tokens_from_messages` helper and `callModel` the content
returned by `openai.chat.completions.create(model=model, messages=messages)`.
The source asserts `num_tokens_from_messages(messages, model=model_name) <= 8192`
(note: measured with the module-global `model_name`, not the `model`
argument) before making its single API call; a failed assertion aborts with
no call made, which is modelled by `none`.  The `Nat` in the result counts
external calls. -/
def synthesize_summaries (numTokensFromMessages : List Message → String → Nat)
    (callModel : String → List Message → String)
    (summaries : List String) (model : String) : Option (String × Nat) :=
  let messages := synthMessages summaries
  if numTokensFromMessages messages model_name ≤ 8192 then
    some (callModel model messages, 1)
  else
    none

/-- A minimal concrete oracle used to instantiate the theorems: one token
per character, a model that always answers the empty string, and a splitter
that returns no sections. -/
def OcW : Oracle :=
  { enc := fun s => s.data.map (fun _ => 0),
    gpt := fun _ _ => "",
    split := fun _ _ _ _ => [] }

/-- A concrete oracle whose model answers `"SUM"`, for exhibiting the
delimiter wrapping of a single-call summarization. -/
def Oc2 : Oracle :=
  { enc := fun s => s.data.map (fun _ => 0),
    gpt := fun _ _ => "SUM",
    split := fun _ _ _ _ => [] }

/-- A concrete oracle for the memoization counterexample: one token per
character, a model that always answers the empty string, and a splitter
that cuts the 16-character input into its two 8-character halves (a lossless
split with both sections within the 14-token budget). -/
def Oc3 : Oracle :=
  { enc := fun s => s.data.map (fun _ => 0),
    gpt := fun _ _ => "",
    split := fun t _ _ _ =>
      if t = "aaaaaaaabbbbbbbb" then ["aaaaaaaa", "bbbbbbbb"] else [t] }

/-- Parameters used by the concrete memoization runs. -/
def qc3 : SummarizationParameters :=
  { target_summary_size := 7, summary_input_size := 14 }

/-- First run of the memoized engine on a fresh (empty) cache, on a text
that must be split. -/
def c3run1 : Option (String × MState) :=
  summarizeM Oc3 "." model_name qc3 20 "aaaaaaaabbbbbbbb" { cache := [], calls := 0 }

/-- The state left behind by the first run. -/
def c3state : MState :=
  (c3run1.getD ("", { cache := [], calls := 0 })).2

/-- Second run of the memoized engine with identical arguments, starting
from the state left by the first run. -/
def c3run2 : Option (String × MState) :=
  summarizeM Oc3 "." model_name qc3 20 "aaaaaaaabbbbbbbb" c3state

/-- Claim C1, counterexample.  With a base-prompt token count of 50, a
target of 100 and a context of 100, the computed budget is
`100 - (50 + 100) = -50 <= 0`, yet `summarization_token_parameters` returns a
`SummarizationParameters` value — there is no error path in the source
(lines 70-83 unconditionally return), so the claimed `InvalidBudget`
failure does not happen. -/
theorem token_parameters_nonpositive_counterexample :
    summarization_token_parameters (fun _ _ => 50) (fun _ _ => []) 100 100 =
      { target_summary_size := 100, summary_input_size := -50 } ∧
    (-50 : Int) ≤ 0 :=
  ⟨rfl, by decide⟩

/-- Claim C1, amended.  For every base-prompt size function and every
`target_summary_size` and `model_context_size` making the computed budget
non-positive, `summarization_token_parameters` performs no validation: it
still returns the `SummarizationParameters` value carrying that non-positive
`summary_input_size`; no `InvalidBudget` error is raised. -/
theorem token_parameters_no_validation
    (numTokensFromMessages : List Message → String → Nat)
    (promptMessages : String → Int → List Message)
    (target ctx : Int)
    (h : ctx - ((numTokensFromMessages (promptMessages "" target) model_name : Int)
        + target) ≤ 0) :
    summarization_token_parameters numTokensFromMessages promptMessages target ctx =
      { target_summary_size := target,
        summary_input_size :=
          ctx - ((numTokensFromMessages (promptMessages "" target) model_name : Int)
            + target) } ∧
    (summarization_token_parameters numTokensFromMessages promptMessages
        target ctx).summary_input_size ≤ 0 :=
  ⟨rfl, h⟩

/-- Claim C1, witness for the amended theorem at a concrete input. -/
theorem token_parameters_no_validation_witness :
    summarization_token_parameters (fun _ _ => 60) (fun _ _ => []) 200 150 =
      { target_summary_size := 200,
        summary_input_size := 150 - (((60 : Nat) : Int) + 200) } ∧
    (summarization_token_parameters (fun _ _ => 60) (fun _ _ => [])
        200 150).summary_input_size ≤ 0 :=
  token_parameters_no_validation (fun _ _ => 60) (fun _ _ => []) 200 150 (by decide)

/-- Claim C4: when every API attempt fails with a retryable transient
provider error, `gpt_summarize` attempts the call exactly `MAX_ATTEMPTS = 3`
times, then re-raises the error of the third attempt as fatal; no fourth
attempt is made, no tokens are recorded, and no partial or fallback result
is returned (the result is `raised`, not `ok`). -/
theorem gpt_summarize_retry_bound (call : Nat → CallOutcome) (rand : Nat → Rat)
    (h : ∀ n, call n = CallOutcome.failure true) :
    gpt_summarize call rand =
      { result := GptResult.raised 3, attempts := 3,
        sleeps := [backoffWait (rand 1) 1, backoffWait (rand 2) 2],
        tokensAdded := 0 } := by
  have e2 : gptAux call rand 2 =
      { result := GptResult.raised 3, attempts := 1, sleeps := [], tokensAdded := 0 } := by
    rw [gptAux, h 3]
    simp [MAX_ATTEMPTS]
  have e1 : gptAux call rand 1 =
      { result := GptResult.raised 3, attempts := 2,
        sleeps := [backoffWait (rand 2) 2], tokensAdded := 0 } := by
    rw [gptAux, h 2]
    simp [MAX_ATTEMPTS, e2]
  rw [gpt_summarize, gptAux, h 1]
  simp [MAX_ATTEMPTS, e1]

/-- Claim C4, witness: the always-failing call at a concrete random
stream. -/
theorem gpt_summarize_retry_bound_witness :
    gpt_summarize (fun _ => CallOutcome.failure true) (fun _ => 0) =
      { result := GptResult.raised 3, attempts := 3,
        sleeps := [backoffWait 0 1, backoffWait 0 2],
        tokensAdded := 0 } :=
  gpt_summarize_retry_bound (fun _ => CallOutcome.failure true) (fun _ => 0)
    (fun _ => rfl)

/-- Claim C9: before retrying a transiently failed attempt number
`tries + 1 < MAX_ATTEMPTS`, the loop sleeps for exactly
`u * t * t` seconds where `t` is the attempt number and
`u = random.random() * 4 + 1`; whenever the `random.random()` draw lies in
`[0, 1)`, the factor `u` lies in `[1, 5)`.  (`random.random()` is uniform on
`[0,1)` and `r ↦ 4r + 1` is an increasing affine bijection onto `[1,5)`, so
the factor is uniform on `[1,5)`; the distributional part is outside the
embedding.) -/
theorem gpt_backoff_quadratic (call : Nat → CallOutcome) (rand : Nat → Rat)
    (tries : Nat)
    (hfail : call (tries + 1) = CallOutcome.failure true)
    (hlt : tries + 1 < MAX_ATTEMPTS)
    (h0 : 0 ≤ rand (tries + 1)) (h1 : rand (tries + 1) < 1) :
    (1 ≤ rand (tries + 1) * 4 + 1 ∧ rand (tries + 1) * 4 + 1 < 5) ∧
    (gptAux call rand tries).sleeps.head? =
      some ((rand (tries + 1) * 4 + 1) * ((tries : Rat) + 1) * ((tries : Rat) + 1)) := by
  constructor
  · constructor <;> nlinarith
  · have hns : ¬ MAX_ATTEMPTS ≤ tries + 1 := by simp only [MAX_ATTEMPTS] at hlt ⊢; omega
    rw [gptAux, hfail]
    simp only [hns, dite_false, if_true, List.head?_cons, Option.some.injEq, backoffWait]
    push_cast
    ring

/-- Claim C9, witness at attempt 1 with a concrete draw of 1/2: the sleep is
`3 * 1 * 1` seconds with `3 ∈ [1, 5)`. -/
theorem gpt_backoff_quadratic_witness :
    (1 ≤ (1 : Rat)/2 * 4 + 1 ∧ (1 : Rat)/2 * 4 + 1 < 5) ∧
    (gptAux (fun _ => CallOutcome.failure true) (fun _ => (1 : Rat)/2) 0).sleeps.head? =
      some (((1 : Rat)/2 * 4 + 1) * ((0 : Rat) + 1) * ((0 : Rat) + 1)) :=
  gpt_backoff_quadratic (fun _ => CallOutcome.failure true) (fun _ => (1 : Rat)/2)
    0 rfl (by decide) (by norm_num) (by norm_num)

/-- Unfolding equation of the retry loop: a successful attempt returns the
wrapped content at once. -/
theorem gptAux_success (call : Nat → CallOutcome) (rand : Nat → Rat)
    (tries : Nat) (content : String) (tok : Nat)
    (hc : call (tries + 1) = CallOutcome.success content tok) :
    gptAux call rand tries =
      { result := GptResult.ok ("[[[" ++ content ++ "]]]"),
        attempts := 1, sleeps := [], tokensAdded := tok } := by
  rw [gptAux, hc]

/-- Unfolding equation of the retry loop: a failure at the attempt ceiling
re-raises. -/
theorem gptAux_fail_max (call : Nat → CallOutcome) (rand : Nat → Rat)
    (tries : Nat) (b : Bool)
    (hc : call (tries + 1) = CallOutcome.failure b)
    (hd : MAX_ATTEMPTS ≤ tries + 1) :
    gptAux call rand tries =
      { result := GptResult.raised (tries + 1), attempts := 1, sleeps := [],
        tokensAdded := 0 } := by
  rw [gptAux, hc]
  dsimp only
  rw [dif_pos hd]

/-- Unfolding equation of the retry loop: a non-retryable failure below the
ceiling re-raises. -/
theorem gptAux_fail_noretry (call : Nat → CallOutcome) (rand : Nat → Rat)
    (tries : Nat)
    (hc : call (tries + 1) = CallOutcome.failure false)
    (hd : ¬ MAX_ATTEMPTS ≤ tries + 1) :
    gptAux call rand tries =
      { result := GptResult.raised (tries + 1), attempts := 1, sleeps := [],
        tokensAdded := 0 } := by
  rw [gptAux, hc]
  dsimp only
  rw [dif_neg hd]
  simp

/-- Unfolding equation of the retry loop: a retryable failure below the
ceiling sleeps and loops. -/
theorem gptAux_fail_retry (call : Nat → CallOutcome) (rand : Nat → Rat)
    (tries : Nat)
    (hc : call (tries + 1) = CallOutcome.failure true)
    (hd : ¬ MAX_ATTEMPTS ≤ tries + 1) :
    gptAux call rand tries =
      { result := (gptAux call rand (tries + 1)).result,
        attempts := (gptAux call rand (tries + 1)).attempts + 1,
        sleeps := backoffWait (rand (tries + 1)) (tries + 1) ::
          (gptAux call rand (tries + 1)).sleeps,
        tokensAdded := (gptAux call rand (tries + 1)).tokensAdded } := by
  rw [gptAux, hc]
  dsimp only
  rw [dif_neg hd]
  simp

/-- Helper for claim C10: invariant of the retry loop.  If the loop starting
at counter `tries` returns `ok s` and the final attempt (the
`tries + attempts`-th call) reported outcome `success c tok`, then `s` is the
delimiter-wrapped content of that call and exactly its `tok` usage was added
to `actual_tokens`; if the loop re-raises, nothing was added. -/
theorem gptAux_frame (call : Nat → CallOutcome) (rand : Nat → Rat) :
    ∀ k tries, MAX_ATTEMPTS - tries ≤ k →
      (∀ c tok s, (gptAux call rand tries).result = GptResult.ok s →
        call (tries + (gptAux call rand tries).attempts) = CallOutcome.success c tok →
        s = "[[[" ++ c ++ "]]]" ∧ (gptAux call rand tries).tokensAdded = tok) ∧
      (∀ a, (gptAux call rand tries).result = GptResult.raised a →
        (gptAux call rand tries).tokensAdded = 0) := by
  intro k
  induction k with
  | zero =>
    intro tries hk
    have htr : MAX_ATTEMPTS ≤ tries + 1 := by omega
    cases hc : call (tries + 1) with
    | success content tok =>
      rw [gptAux_success call rand tries content tok hc]
      refine ⟨fun c tok' s hres hcall => ?_, fun a hres => (by simp at hres)⟩
      simp only at hres
      cases hres
      simp only [Nat.add_comm] at hcall
      rw [hc] at hcall
      cases hcall
      exact ⟨rfl, rfl⟩
    | failure b =>
      rw [gptAux_fail_max call rand tries b hc htr]
      exact ⟨fun c tok s hres _ => (by simp at hres), fun a _ => rfl⟩
  | succ k ih =>
    intro tries hk
    cases hc : call (tries + 1) with
    | success content tok =>
      rw [gptAux_success call rand tries content tok hc]
      refine ⟨fun c tok' s hres hcall => ?_, fun a hres => (by simp at hres)⟩
      simp only at hres
      cases hres
      simp only [Nat.add_comm] at hcall
      rw [hc] at hcall
      cases hcall
      exact ⟨rfl, rfl⟩
    | failure b =>
      by_cases hd : MAX_ATTEMPTS ≤ tries + 1
      · rw [gptAux_fail_max call rand tries b hc hd]
        exact ⟨fun c tok s hres _ => (by simp at hres), fun a _ => rfl⟩
      · cases b with
        | false =>
          rw [gptAux_fail_noretry call rand tries hc hd]
          exact ⟨fun c tok s hres _ => (by simp at hres), fun a _ => rfl⟩
        | true =>
          have ihs := ih (tries + 1) (by omega)
          rw [gptAux_fail_retry call rand tries hc hd]
          refine ⟨fun c tok s hres hcall => ?_, fun a hres => ?_⟩
          · simp only at hres hcall ⊢
            have harith : tries + ((gptAux call rand (tries + 1)).attempts + 1) =
                (tries + 1) + (gptAux call rand (tries + 1)).attempts := by omega
            rw [harith] at hcall
            exact ihs.1 c tok s hres hcall
          · simp only at hres ⊢
            exact ihs.2 a hres

/-- Claim C10: `gpt_summarize` mutates only the module global
`actual_tokens` (the only global it assigns, `summarize.py` line 29).  On a
successful invocation whose final attempt reported `success c tok`, the
counter is incremented by exactly that call's reported `usage.total_tokens`
(= `tok`) and the returned summary is that call's wrapped content; on an
invocation that re-raises (retry exhaustion or a non-retryable error), the
counter is left unchanged — failed attempts add nothing. -/
theorem gpt_actual_tokens_frame (call : Nat → CallOutcome) (rand : Nat → Rat)
    (actual_tokens : Nat) :
    (∀ c tok s, (gpt_summarize call rand).result = GptResult.ok s →
      call ((gpt_summarize call rand).attempts) = CallOutcome.success c tok →
      s = "[[[" ++ c ++ "]]]" ∧
      (gpt_summarize_run call rand actual_tokens).2 = actual_tokens + tok) ∧
    (∀ a, (gpt_summarize call rand).result = GptResult.raised a →
      (gpt_summarize_run call rand actual_tokens).2 = actual_tokens) := by
  have h := gptAux_frame call rand MAX_ATTEMPTS 0 (by omega)
  constructor
  · intro c tok s hres hcall
    have hcall' : call (0 + (gptAux call rand 0).attempts) = CallOutcome.success c tok := by
      simpa using hcall
    have hmain := h.1 c tok s hres hcall'
    exact ⟨hmain.1, by simp [gpt_summarize_run, gpt_summarize, hmain.2]⟩
  · intro a hres
    have hz := h.2 a hres
    simp [gpt_summarize_run, gpt_summarize, hz]

/-- Claim C10, witness: a call succeeding immediately with usage 42 raises
the counter from 5 to 5 + 42, and the returned summary is the wrapped
content. -/
theorem gpt_actual_tokens_frame_witness :
    "[[[S]]]" = "[[[" ++ "S" ++ "]]]" ∧
    (gpt_summarize_run (fun _ => CallOutcome.success "S" 42) (fun _ => 0) 5).2 =
      5 + 42 :=
  (gpt_actual_tokens_frame (fun _ => CallOutcome.success "S" 42) (fun _ => 0) 5).1
    "S" 42 "[[[S]]]"
    (by rw [gpt_summarize, gptAux_success _ _ 0 "S" 42 rfl]; rfl)
    rfl

/-- Claim C5: for every text whose token count is at most
`target_summary_size`, `summarize` takes the first branch
(`summarize.py`, lines 99-101): it returns the text unchanged and performs
zero external model calls. -/
theorem summarize_short_text_identity (O : Oracle) (dp mdl : String)
    (q : SummarizationParameters) (fuel : Nat) (text : String)
    (h : ((O.enc text).length : Int) ≤ q.target_summary_size) :
    summarizeP O dp mdl q (fuel + 1) text = some (text, 0) := by
  rw [summarizeP]
  rw [if_pos h]

/-- Claim C5, witness: a 3-character text under a target of 7 tokens is
returned unchanged with zero calls. -/
theorem summarize_short_text_identity_witness :
    summarizeP OcW "." model_name
      { target_summary_size := 7, summary_input_size := 10 } 1 "abc" =
      some ("abc", 0) :=
  summarize_short_text_identity OcW "." model_name
    { target_summary_size := 7, summary_input_size := 10 } 0 "abc" (by decide)

/-- Claim C2, counterexample.  On a 5-token text with
`target_summary_size = 3 < 5 <= 10 = summary_input_size`, `summarize` makes
exactly one external call, but its returned value (`summarize.py`,
lines 102-107) is the raw `gpt_summarize` result and therefore still carries
both delimiter markers: it starts with `[[[` and ends with `]]]`.  The
markers are stripped only by the top-level caller (lines 219-220), so the
claim that the returned value does not contain them is false. -/
theorem summarize_single_call_delimiters_counterexample :
    summarizeP Oc2 "." model_name
      { target_summary_size := 3, summary_input_size := 10 } 1 "abcde" =
      some ("[[[SUM]]]", 1) ∧
    "[[[SUM]]]".data.take 3 = ['[', '[', '['] ∧
    "[[[SUM]]]".data.drop 6 = [']', ']', ']'] := by
  refine ⟨?_, by decide, by decide⟩
  rfl

/-- Claim C2, amended: for every text whose token count lies strictly
between `target_summary_size` and `summary_input_size` (inclusive above),
`summarize` makes exactly one external model call and returns the
delimiter-wrapped model output `"[[[" ++ content ++ "]]]"` unchanged — the
markers are present in the returned value and are stripped later by the
top-level caller, not by `summarize`. -/
theorem summarize_single_call_wrapped (O : Oracle) (dp mdl : String)
    (q : SummarizationParameters) (fuel : Nat) (text : String)
    (h1 : q.target_summary_size < ((O.enc text).length : Int))
    (h2 : ((O.enc text).length : Int) ≤ q.summary_input_size) :
    summarizeP O dp mdl q (fuel + 1) text =
      some (gptSum O text q.target_summary_size, 1) := by
  rw [summarizeP]
  rw [if_neg (not_le.mpr h1), if_pos h2]

/-- Claim C2, witness for the amended theorem: the 5-token text under
target 3 and budget 10 produces exactly one call and the wrapped output. -/
theorem summarize_single_call_wrapped_witness :
    summarizeP Oc2 "." model_name
      { target_summary_size := 3, summary_input_size := 10 } 1 "abcde" =
      some (gptSum Oc2 "abcde" 3, 1) :=
  summarize_single_call_wrapped Oc2 "." model_name
    { target_summary_size := 3, summary_input_size := 10 } 0 "abcde"
    (by decide) (by decide)

/-- Helper for claim C3: whenever the memoized engine completes with value
`v`, the final state's cache contains a complete entry for the full argument
tuple mapping to `v` (either it was already there — a hit — or the wrapper
wrote it on completion). -/
theorem summarizeM_cached (O : Oracle) (dp mdl : String)
    (q : SummarizationParameters) (fuel : Nat) (text : String) (s : MState)
    (v : String) (s1 : MState)
    (h : summarizeM O dp mdl q fuel text s = some (v, s1)) :
    cacheLookup (text, q, dp, mdl) s1.cache = some v := by
  cases fuel with
  | zero =>
    rw [summarizeM] at h
    cases hl : cacheLookup (text, q, dp, mdl) s.cache with
    | none => rw [hl] at h; cases h
    | some w =>
      rw [hl] at h
      cases h
      exact hl
  | succ fuel =>
    rw [summarizeM] at h
    cases hl : cacheLookup (text, q, dp, mdl) s.cache with
    | some w =>
      rw [hl] at h
      cases h
      exact hl
    | none =>
      rw [hl] at h
      dsimp only at h
      cases hb : (if ((O.enc text).length : Int) ≤ q.target_summary_size then
          some (text, s)
        else if ((O.enc text).length : Int) ≤ q.summary_input_size then
          some (gptSum O text q.target_summary_size, { s with calls := s.calls + 1 })
        else
          match goListM (fun t s' => summarizeM O dp mdl q fuel t s')
              (O.split text q.summary_input_size dp mdl) s with
          | none => none
          | some (summaries, s2) =>
            summarizeM O dp mdl q fuel (String.intercalate "\n\n" summaries) s2) with
      | none => rw [hb] at h; cases h
      | some p =>
        rw [hb] at h
        cases h
        simp [cacheLookup]

/-- Claim C3, amended: calling the memoized `summarize` a second time with
identical arguments, starting from the state left by a completed first
call, returns the identical result and leaves the state — including the
external-call counter — untouched: the cache is consulted before any
network attempt, so the second call is a pure cache hit performing zero
network calls (any recursion depth `fuel2` suffices, the body is never
entered).  The total network traffic of the two calls is therefore exactly
that of the first call alone — which, contrary to the claim's "at most one
network call in total", exceeds one whenever the text must be split (see
the counterexample). -/
theorem summarize_memo_second_call_cached (O : Oracle) (dp mdl : String)
    (q : SummarizationParameters) (fuel1 fuel2 : Nat) (text : String)
    (s : MState) (v : String) (s1 : MState)
    (h : summarizeM O dp mdl q fuel1 text s = some (v, s1)) :
    summarizeM O dp mdl q fuel2 text s1 = some (v, s1) := by
  have hc := summarizeM_cached O dp mdl q fuel1 text s v s1 h
  cases fuel2 with
  | zero => rw [summarizeM, hc]
  | succ fuel2 => rw [summarizeM, hc]

/-- Parameters used by the concrete memo-hit witness run. -/
def qcw : SummarizationParameters :=
  { target_summary_size := 7, summary_input_size := 10 }

/-- The state left by a first memoized run on the empty text: one complete
cache entry for its argument tuple, zero external calls. -/
def cwstate : MState :=
  { cache := [(((""), qcw, ".", model_name), "")], calls := 0 }

/-- Claim C3, witness: on the empty text (already within target) the first
call completes and writes its cache entry; the second call with identical
arguments returns the same value from the cache with the state unchanged. -/
theorem summarize_memo_second_call_cached_witness :
    summarizeM OcW "." model_name qcw 3 "" cwstate = some ("", cwstate) :=
  summarize_memo_second_call_cached OcW "." model_name qcw 1 3 ""
    { cache := [], calls := 0 } "" cwstate (by rfl)

/-- Claim C3, counterexample.  A 16-token text over a budget of 14 must be
split; with a lossless two-section split, the first call performs three
network calls (one per section plus one for the joined summaries), not at
most one.  The second identical call is a pure cache hit (same value, call
counter still 3), so the two calls' results are identical and the cache
prevents re-calling — but "at most one network call in total" is false:
the total is 3. -/
theorem summarize_memo_total_calls_counterexample :
    (c3run1.map fun p => (p.1, p.2.calls)) = some ("[[[]]]", 3) ∧
    (c3run2.map fun p => (p.1, p.2.calls)) = some ("[[[]]]", 3) ∧
    ¬ ((3 : Nat) ≤ 1) := by
  refine ⟨by rfl, by rfl, by decide⟩

/-- Claim C8: `synthesize_summaries` asserts, before making its single
external model call (`summarize.py`, lines 149-153), that the rendered
prompt containing all joined summaries totals at most 8192 tokens.  When
the bound is exceeded the assertion fails fatally: no call is made, no
retry, no recovery (the result is `none` and the call count never comes
into existence).  Under the precondition, exactly one external call is
made and its content is returned. -/
theorem synthesize_assert_budget
    (numTokensFromMessages : List Message → String → Nat)
    (callModel : String → List Message → String)
    (summaries : List String) (model : String) :
    (8192 < numTokensFromMessages (synthMessages summaries) model_name →
      synthesize_summaries numTokensFromMessages callModel summaries model = none) ∧
    (numTokensFromMessages (synthMessages summaries) model_name ≤ 8192 →
      synthesize_summaries numTokensFromMessages callModel summaries model =
        some (callModel model (synthMessages summaries), 1)) := by
  constructor
  · intro h
    rw [synthesize_summaries]
    rw [if_neg (not_le.mpr h)]
  · intro h
    rw [synthesize_summaries]
    rw [if_pos h]

/-- Claim C8, witness: a token counter reporting 9000 makes the assertion
fail with no call; one reporting 10 yields exactly one call. -/
theorem synthesize_assert_budget_witness :
    synthesize_summaries (fun _ _ => 9000) (fun _ _ => "R") ["s"] "gpt-4" = none ∧
    synthesize_summaries (fun _ _ => 10) (fun _ _ => "R") ["s"] "gpt-4" =
      some ("R", 1) :=
  ⟨(synthesize_assert_budget (fun _ _ => 9000) (fun _ _ => "R") ["s"] "gpt-4").1
      (by decide),
   (synthesize_assert_budget (fun _ _ => 10) (fun _ _ => "R") ["s"] "gpt-4").2
      (by decide)⟩

/-- The boundary-run decomposition is lossless: concatenating the runs in
order yields back the character list. -/
theorem sentences_flatten (c : Char) :
    ∀ l : List Char, (sentences c l).flatten = l := by
  intro l
  induction l with
  | nil => rfl
  | cons x xs ih =>
    rw [sentences]
    cases hs : sentences c xs with
    | nil =>
      have hxs : xs = [] := by
        rw [hs] at ih
        simpa using ih.symm
      subst hxs
      simp
    | cons s ss =>
      rw [hs] at ih
      dsimp only
      by_cases hx : x = c
      · rw [if_pos hx]
        simp only [List.flatten_cons] at ih ⊢
        rw [ih]
        rfl
      · rw [if_neg hx]
        simp only [List.flatten_cons] at ih ⊢
        rw [List.cons_append, ih]

/-- The hard-cut fallback is lossless (bounded-length induction). -/
theorem hardCut_flatten_aux (n : Nat) :
    ∀ k (l : List Char), l.length ≤ k → (hardCut n l).flatten = l := by
  intro k
  induction k with
  | zero =>
    intro l hl
    have hnil : l = [] := List.length_eq_zero.mp (Nat.le_zero.mp hl)
    subst hnil
    rw [hardCut]
    rfl
  | succ k ih =>
    intro l hl
    cases l with
    | nil => rw [hardCut]; rfl
    | cons x xs =>
      rw [hardCut]
      simp only [List.flatten_cons]
      rw [ih (xs.drop (n - 1)) (by simp only [List.length_drop]; simp at hl; omega)]
      rw [List.cons_append, List.take_append_drop]

/-- The hard-cut fallback is lossless. -/
theorem hardCut_flatten (n : Nat) (l : List Char) : (hardCut n l).flatten = l :=
  hardCut_flatten_aux n l.length l le_rfl

/-- Greedy grouping is lossless: the produced sections concatenate to the
pending accumulator followed by the remaining runs. -/
theorem groupGo_flatten (mu : List Char → Nat) (B : Int) :
    ∀ (ts : List (List Char)) (acc : List Char),
      (groupGo mu B ts acc).flatten = acc ++ ts.flatten := by
  intro ts
  induction ts with
  | nil =>
    intro acc
    rw [groupGo]
    by_cases h : acc.isEmpty
    · have hacc : acc = [] := by
        cases acc with
        | nil => rfl
        | cons a as => simp [List.isEmpty] at h
      rw [if_pos h, hacc]
      rfl
    · rw [if_neg h]
      simp
  | cons s ts ih =>
    intro acc
    rw [groupGo]
    by_cases h1 : ((mu (acc ++ s) : Int)) ≤ B
    · rw [if_pos h1, ih]
      simp [List.append_assoc]
    · rw [if_neg h1]
      by_cases h2 : acc.isEmpty
      · rw [if_pos h2]
        have hacc : acc = [] := by
          cases acc with
          | nil => rfl
          | cons a as => simp [List.isEmpty] at h2
        rw [List.flatten_append, hardCut_flatten, ih, hacc]
        simp
      · rw [if_neg h2]
        by_cases h3 : ((mu s : Int)) ≤ B
        · rw [if_pos h3]
          simp only [List.flatten_cons]
          rw [ih]
        · rw [if_neg h3]
          simp only [List.flatten_cons]
          rw [List.flatten_append, hardCut_flatten, ih]
          simp

/-- Rejoining a list of strings built from character lists is building the
string of the flattened lists. -/
theorem concatStrings_map_mk :
    ∀ l : List (List Char), concatStrings (l.map String.mk) = String.mk l.flatten := by
  intro l
  induction l with
  | nil => rfl
  | cons a rest ih =>
    rw [List.map_cons, concatStrings, ih]
    rfl

/-- Claim C7: for every text whose token count exceeds the input budget
(the situation in which `summarize` invokes the splitter,
`summarize.py` lines 108-112), splitting via the section splitter and
rejoining the returned segments in order reproduces the text exactly.
The splitter is modelled from the spec (4.3): boundary-run decomposition,
greedy grouping within the token budget, hard-cut fallback — every path
keeps the characters intact, so the round trip is the identity. -/
theorem split_sections_roundtrip (enc : String → List Nat) (text : String)
    (maxTokens : Int) (division_point mdl : String)
    (_h : maxTokens < ((enc text).length : Int)) :
    concatStrings (split_text_into_sections enc text maxTokens division_point mdl) =
      text := by
  rw [split_text_into_sections]
  cases hd : division_point.data with
  | nil =>
    rw [concatStrings_map_mk, groupGo_flatten]
    dsimp only
    simp
  | cons c rest =>
    rw [concatStrings_map_mk, groupGo_flatten]
    dsimp only
    rw [List.nil_append, sentences_flatten]

/-- Claim C7, witness: splitting `"ab.cd"` (5 tokens, budget 3) at `"."`
yields sections that rejoin to the original text. -/
theorem split_sections_roundtrip_witness :
    concatStrings (split_text_into_sections (fun s => s.data.map (fun _ => 0))
      "ab.cd" 3 "." model_name) = "ab.cd" :=
  split_sections_roundtrip (fun s => s.data.map (fun _ => 0)) "ab.cd" 3 "."
    model_name (by decide)

/-- Sequencing a body over a list succeeds when the body succeeds on every
element, and every collected result satisfies any property the body's
results satisfy; the result list has the same length. -/
theorem goListP_all (f : String → Option (String × Nat)) (R : String → Prop) :
    ∀ ps : List String, (∀ p ∈ ps, ∃ r c, f p = some (r, c) ∧ R r) →
      ∃ rs cs, goListP f ps = some (rs, cs) ∧ rs.length = ps.length ∧
        ∀ r ∈ rs, R r := by
  intro ps
  induction ps with
  | nil => exact fun _ => ⟨[], 0, rfl, rfl, by simp⟩
  | cons p ps ih =>
    intro h
    obtain ⟨r, c, hfp, hR⟩ := h p (List.mem_cons_self p ps)
    obtain ⟨rs, cs, hg, hlen, hall⟩ := ih (fun x hx => h x (List.mem_cons_of_mem p hx))
    refine ⟨r :: rs, c + cs, ?_, by simp [hlen], ?_⟩
    · rw [goListP, hfp, hg]
    · intro x hx
      rcases List.mem_cons.mp hx with h1 | h2
      · exact h1 ▸ hR
      · exact hall x h2

/-- Claim C6: the recursion of `summarize` (`summarize.py`, lines 86-121)
terminates for every input text — fuel `token count + 1` always suffices —
under the contracts of the external collaborators that the spec states:
every section returned by the splitter for an over-budget text fits within
`summary_input_size` (each split strictly reduces per-segment size below
the previous input size, spec 4.3/4.5), the wrapped model output fits
within the fixed floor `target_summary_size`, and joining per-section
results that fit the target floor yields a text strictly smaller than the
over-budget input.  Under these hypotheses every section is settled by a
terminal branch and the re-summarized join strictly shrinks, so the
recursion reaches a terminal branch after finitely many calls. -/
theorem summarize_terminates (O : Oracle) (dp mdl : String)
    (q : SummarizationParameters)
    (hgpt : ∀ t : String,
      ((O.enc (gptSum O t q.target_summary_size)).length : Int) ≤
        q.target_summary_size)
    (hsplit : ∀ t : String, q.summary_input_size < ((O.enc t).length : Int) →
      ∀ p ∈ O.split t q.summary_input_size dp mdl,
        ((O.enc p).length : Int) ≤ q.summary_input_size)
    (hjoin : ∀ t : String, q.summary_input_size < ((O.enc t).length : Int) →
      ∀ l : List String,
        l.length = (O.split t q.summary_input_size dp mdl).length →
        (∀ x ∈ l, ((O.enc x).length : Int) ≤ q.target_summary_size) →
        (O.enc (String.intercalate "\n\n" l)).length < (O.enc t).length) :
    ∀ text : String,
      (summarizeP O dp mdl q ((O.enc text).length + 1) text).isSome := by
  have htarget : (0 : Int) ≤ q.target_summary_size :=
    le_trans (Int.ofNat_nonneg _) (hgpt "")
  have main : ∀ n : Nat, ∀ text : String, (O.enc text).length = n →
      ∀ fuel : Nat, n < fuel →
      ∃ r c, summarizeP O dp mdl q fuel text = some (r, c) ∧
        ((O.enc r).length : Int) ≤ q.target_summary_size := by
    intro n
    induction n using Nat.strong_induction_on with
    | _ n ih =>
      intro text htext fuel hfuel
      obtain ⟨fuel, rfl⟩ : ∃ f, fuel = f + 1 := ⟨fuel - 1, by omega⟩
      by_cases hb1 : ((O.enc text).length : Int) ≤ q.target_summary_size
      · exact ⟨text, 0, by rw [summarizeP, if_pos hb1], hb1⟩
      · by_cases hb2 : ((O.enc text).length : Int) ≤ q.summary_input_size
        · exact ⟨gptSum O text q.target_summary_size, 1,
            by rw [summarizeP, if_neg hb1, if_pos hb2], hgpt text⟩
        · push_neg at hb1 hb2
          have hn1 : 1 ≤ n := by
            have h0 : (0 : Int) < ((O.enc text).length : Int) :=
              lt_of_le_of_lt htarget hb1
            rw [htext] at h0
            exact_mod_cast h0
          have hpart : ∀ p ∈ O.split text q.summary_input_size dp mdl,
              ∃ r c, summarizeP O dp mdl q fuel p = some (r, c) ∧
                ((O.enc r).length : Int) ≤ q.target_summary_size := by
            intro p hp
            have hpb : ((O.enc p).length : Int) ≤ q.summary_input_size :=
              hsplit text hb2 p hp
            obtain ⟨f2, hf2⟩ : ∃ f2, fuel = f2 + 1 := ⟨fuel - 1, by omega⟩
            subst hf2
            by_cases hp1 : ((O.enc p).length : Int) ≤ q.target_summary_size
            · exact ⟨p, 0, by rw [summarizeP, if_pos hp1], hp1⟩
            · exact ⟨gptSum O p q.target_summary_size, 1,
                by rw [summarizeP, if_neg hp1, if_pos hpb], hgpt p⟩
          obtain ⟨rs, cs, hg, hlen, hall⟩ :=
            goListP_all (fun t => summarizeP O dp mdl q fuel t) _ _ hpart
          have hJ : (O.enc (String.intercalate "\n\n" rs)).length < n := by
            have hlt := hjoin text hb2 rs hlen hall
            omega
          obtain ⟨r, c2, hrec, hrt⟩ :=
            ih (O.enc (String.intercalate "\n\n" rs)).length hJ
              (String.intercalate "\n\n" rs) rfl fuel (by omega)
          refine ⟨r, cs + c2, ?_, hrt⟩
          rw [summarizeP, if_neg (not_le.mpr hb1), if_neg (not_le.mpr hb2), hg]
          dsimp only
          rw [hrec]
  intro text
  obtain ⟨r, c, hr, _⟩ :=
    main (O.enc text).length text rfl ((O.enc text).length + 1) (by omega)
  rw [hr]
  rfl

/-- Claim C6, witness: the termination theorem applied to a concrete oracle
(one token per character, empty model output, empty split) and a concrete
text, with all three collaborator contracts discharged. -/
theorem summarize_terminates_witness :
    (summarizeP OcW "." model_name qcw ((OcW.enc "aaaa").length + 1) "aaaa").isSome :=
  summarize_terminates OcW "." model_name qcw
    (by
      intro t
      have h1 : gptSum OcW t qcw.target_summary_size = "[[[]]]" := rfl
      rw [h1]
      decide)
    (by
      intro t ht p hp
      simp [OcW] at hp)
    (by
      intro t ht l hlen hall
      have hl0 : l = [] := by
        simp [OcW] at hlen
        exact hlen
      subst hl0
      have h1 : String.intercalate "\n\n" ([] : List String) = "" := rfl
      rw [h1]
      have h2 : (0 : Int) < ((OcW.enc t).length : Int) :=
        lt_trans (by decide) ht
      have h3 : (OcW.enc "").length = 0 := rfl
      rw [h3]
      exact_mod_cast h2)
    "aaaa"
